import Mathlib

/-!
Verification development for the nuqql-matrixd-nio backend.

A shallow embedding of the per-account session-management code:
the lock-guarded command queue of `BackendClient` (client.py), the
membership and room-message event handlers (client.py / matrix.py),
the sync-token persistence (client.py / matrix.py), the room
join/create fallback (matrix.py), the send-path error handling
(matrix.py), and the dispatch handlers of `BackendServer` (server.py).

External collaborators (the nio client library, the nuqql-based
framework, the file system) are modelled as parameters or as explicit
state: the results of remote calls are oracle functions, files are a
record of content and modification time, and Python local-variable
binding is modelled with `Option` so that references to never-assigned
locals surface as `UnboundLocalError`, exactly as Python raises them.
-/

namespace MatrixdNio

/-- Python exceptions that the modelled code can raise or catch. -/
inductive PyExc where
  | typeError
  | keyError
  | attributeError
  | osError
  | localProtocolError (err : String)
  | unboundLocal (name : String)
deriving DecidableEq, Repr

/-! ## Command queue (client.py, `BackendClient.enqueue_command` / `handle_queue`) -/

/-- The `nuqql_based.callback.Callback` values that `handle_queue`
dispatches on, plus `GET_BUDDIES` as a representative callback value
outside the dispatched set (the full enum in nuqql-based is larger). -/
inductive Callback where
  | SEND_MESSAGE
  | SET_STATUS
  | GET_STATUS
  | CHAT_LIST
  | CHAT_JOIN
  | CHAT_PART
  | CHAT_USERS
  | CHAT_INVITE
  | GET_BUDDIES
deriving DecidableEq, Repr

/-- Parameters of a queued command (the Python `params` tuple). -/
abbrev Params := List String

/-- A queue entry: the `(cmd, params)` tuple appended by `enqueue_command`. -/
abbrev Cmd := Callback × Params

/-- State of one `BackendClient` queue: the live buffer `self.queue`
together with the history of batches taken by `handle_queue` drains.
The lock makes each operation atomic, so an interleaving is a sequence
of atomic operations on this state. -/
structure QState where
  queue : List Cmd
  batches : List (List Cmd)
deriving DecidableEq, Repr

/-- `BackendClient.enqueue_command`: under the lock, append the
`(cmd, params)` tuple to `self.queue`. -/
def enqueue_command (s : QState) (c : Cmd) : QState :=
  { s with queue := s.queue ++ [c] }

/-- The locked section of `BackendClient.handle_queue`: copy the queue,
replace the live buffer with an empty list; the copy is the batch
processed outside the lock. -/
def handle_queue_drain (s : QState) : QState :=
  { queue := [], batches := s.batches ++ [s.queue] }

/-- One atomic step of an interleaving: a producer enqueue or a
session-loop drain. -/
inductive QOp where
  | enq (c : Cmd)
  | drain
deriving Repr

/-- Run an interleaving of enqueues and drains from a given state. -/
def run_ops : List QOp → QState → QState
  | [], s => s
  | QOp.enq c :: rest, s => run_ops rest (enqueue_command s c)
  | QOp.drain :: rest, s => run_ops rest (handle_queue_drain s)

/-- The commands submitted by an interleaving, in submission order. -/
def enqueued_of : List QOp → List Cmd
  | [] => []
  | QOp.enq c :: rest => c :: enqueued_of rest
  | QOp.drain :: rest => enqueued_of rest

/-- The initial queue state: `self.queue = []`, nothing drained yet. -/
def init_qstate : QState := ⟨[], []⟩

/-- The actions the body of `handle_queue` can perform on one command. -/
inductive Action where
  | sendMessage (params : Params)
  | setStatus (status : String)
  | getStatus
  | chatList
  | chatJoin (chat : String)
  | chatPart (chat : String)
  | chatUsers (chat : String)
  | chatInvite (chat : String) (user : String)
deriving DecidableEq, Repr

/-- The dispatch chain in the loop body of `handle_queue`: eight
independent `if cmd == ...` tests (the source uses `if`, not `elif`);
a command matching none of them produces no action. -/
def dispatch_cmd (c : Cmd) : List Action :=
  (if c.1 = Callback.SEND_MESSAGE then [Action.sendMessage c.2] else []) ++
  (if c.1 = Callback.SET_STATUS then [Action.setStatus (c.2.getD 0 "")] else []) ++
  (if c.1 = Callback.GET_STATUS then [Action.getStatus] else []) ++
  (if c.1 = Callback.CHAT_LIST then [Action.chatList] else []) ++
  (if c.1 = Callback.CHAT_JOIN then [Action.chatJoin (c.2.getD 0 "")] else []) ++
  (if c.1 = Callback.CHAT_PART then [Action.chatPart (c.2.getD 0 "")] else []) ++
  (if c.1 = Callback.CHAT_USERS then [Action.chatUsers (c.2.getD 0 "")] else []) ++
  (if c.1 = Callback.CHAT_INVITE then
    [Action.chatInvite (c.2.getD 0 "") (c.2.getD 1 "")] else [])

/-- The `for cmd, params in queue:` loop of `handle_queue`, processing
the drained batch front to back. -/
def dispatch_batch : List Cmd → List Action
  | [] => []
  | c :: rest => dispatch_cmd c ++ dispatch_batch rest

/-! ## Accounts and the server dispatch layer (server.py) -/

/-- The fields of a nuqql-based `Account` that the modelled code reads. -/
structure Account where
  aid : Nat
  acc_type : String
  user : String
deriving DecidableEq, Repr

/-- Python positional-argument binding for a call: binding fails with a
`TypeError` unless the number of arguments supplied matches the number
of mandatory parameters (none of the modelled signatures has a default
or a variadic parameter). -/
def py_bind (required given : Nat) : Except PyExc Unit :=
  if given = required then Except.ok () else Except.error PyExc.typeError

/-- Mandatory parameters of `BackendClient.__init__(self, account, lock)`
beyond `self` (client.py line 32): `account` and `lock`, no defaults. -/
def backendClient_init_params : Nat := 2

/-- Mandatory parameters of `MatrixClient.__init__(self, account,
handlers)` beyond `self` (matrix.py line 57). -/
def matrixClient_init_params : Nat := 2

/-- Construct `BackendClient` with `nargs` positional arguments: bind the
call, then run the `__init__` body, whose line
`self.client = MatrixClient(url, self.user, path, (...))` passes four
positional arguments to `MatrixClient.__init__`. -/
def construct_backend_client (nargs : Nat) : Except PyExc Unit := do
  _ ← py_bind backendClient_init_params nargs
  _ ← py_bind matrixClient_init_params 4
  Except.ok ()

/-- All attributes defined on `BackendClient` instances (client.py): the
methods of the class and the instance attributes set in `__init__`. -/
def backendClient_members : List String :=
  ["__init__", "connect", "start", "_membership_event", "_message",
   "muc_message", "_muc_presence", "muc_online", "muc_offline",
   "enqueue_command", "handle_queue", "_send_message", "_set_status",
   "_get_status", "_chat_list", "_chat_create", "_chat_join", "_chat_part",
   "_chat_users", "_chat_invite", "update_buddies", "load_sync_token",
   "update_sync_token", "delete_sync_token", "del_account",
   "account", "user", "client", "settings", "lock", "queue"]

/-- State of the `BackendServer`: the account ids present in the
`connections` registry, and the ids whose client `start()` has been
entered (to express that a failed `add_account` starts no session). -/
structure ServerState where
  connections : List Nat
  started : List Nat
deriving DecidableEq, Repr

/-- `BackendServer.add_account` (server.py lines 127 to 147): non-matrix
accounts are ignored; otherwise `BackendClient(account)` is called with
one positional argument. An exception raised there propagates before
`self.connections[account.aid] = client` and before `client.start()`. -/
def add_account (st : ServerState) (acc : Account) :
    Except PyExc String × ServerState :=
  if acc.acc_type ≠ "matrix" then (Except.ok "", st)
  else
    match construct_backend_client 1 with
    | Except.error e => (Except.error e, st)
    | Except.ok () =>
        let st1 : ServerState :=
          { connections := st.connections ++ [acc.aid],
            started := st.started ++ [acc.aid] }
        (Except.ok "", st1)

/-- `BackendServer.handle_command` (server.py lines 72 to 87): the
registry lookup is wrapped in `try/except KeyError` returning the empty
string; on a hit, `client.handle_command(cmd, params)` is called, an
attribute `BackendClient` does not define, so Python raises
`AttributeError` there. -/
def server_handle_command (conns : List Nat) (aid : Nat) :
    Except PyExc String :=
  if aid ∈ conns then Except.error PyExc.attributeError
  else Except.ok ""

/-- `BackendServer.del_account` (server.py lines 149 to 165): the lookup
`self.connections[account.aid]` is not guarded, so a missing id raises
`KeyError`; on a hit, `client.stop()` is called, an attribute
`BackendClient` does not define, raising `AttributeError`. -/
def server_del_account (conns : List Nat) (aid : Nat) :
    Except PyExc (String × List Nat) :=
  if aid ∈ conns then Except.error PyExc.attributeError
  else Except.error PyExc.keyError

/-- `BackendServer.stop_task` (server.py lines 196 to 207): unguarded
lookup followed by `client.stop()`, as in `del_account`. -/
def server_stop_task (conns : List Nat) (aid : Nat) : Except PyExc String :=
  if aid ∈ conns then Except.error PyExc.attributeError
  else Except.error PyExc.keyError

/-! ## Sync-token persistence (client.py / matrix.py) -/

/-- An on-disk file: its content and its modification time. -/
structure TokenFile where
  content : String
  mtime : Nat
deriving DecidableEq, Repr

/-- The file-system state relevant to one account: the sync-token file
(absent or present) and a clock used to stamp modification times. -/
structure FState where
  tokenFile : Option TokenFile
  clock : Nat
deriving DecidableEq, Repr

/-- Writing the token file (`open(sync_token_file, "w")` followed by
`write(new)`): replaces the content and advances the mtime. -/
def write_token_file (fs : FState) (new : String) : FState :=
  { tokenFile := some ⟨new, fs.clock + 1⟩, clock := fs.clock + 1 }

/-- Python `file.readline()` on the whole file content: the prefix up to
and including the first newline, or the whole content if none. -/
def readline_chars : List Char → List Char
  | [] => []
  | c :: rest => if c = '\n' then [c] else c :: readline_chars rest

/-- `readline` lifted to `String`. -/
def readline (s : String) : String := ⟨readline_chars s.data⟩

/-- `BackendClient.load_sync_token` (client.py lines 335 to 357): create
the file empty if absent, restrict permissions, then read one line;
an `OSError` during the read yields the empty string. -/
def load_sync_token (fs : FState) : FState × String :=
  match fs.tokenFile with
  | none =>
      let fs1 : FState :=
        { tokenFile := some ⟨"", fs.clock + 1⟩, clock := fs.clock + 1 }
      (fs1, "")
  | some f => (fs, readline f.content)

/-- `BackendClient.update_sync_token` (client.py lines 359 to 378):
if `old == new` return `old` touching nothing; otherwise write `new`
to the token file and return `new`; an `OSError` while writing is
caught and `old` is returned. `writeOk` models whether the file write
succeeds. The function is total: no exception escapes it. -/
def update_sync_token (fs : FState) (writeOk : Bool) (old new : String) :
    FState × String :=
  if old = new then (fs, old)
  else if writeOk then (write_token_file fs new, new)
  else (fs, old)

/-- The `MatrixClient` state touched by `_update_sync_token`:
`self.sync_token`, the transport cursor `self.client.next_batch`
returned by `_get_sync_token`, and the file system. -/
structure MCState where
  sync_token : String
  next_batch : String
  fs : FState
deriving DecidableEq, Repr

/-- `MatrixClient._update_sync_token` (matrix.py lines 454 to 475):
if the tokens differ, `self.sync_token = new` is assigned BEFORE the
file write is attempted; an `OSError` during the write is caught and
the method returns with the in-memory token already advanced. -/
def matrix_update_sync_token (st : MCState) (writeOk : Bool) : MCState :=
  let old := st.sync_token
  let new := st.next_batch
  if old = new then st
  else
    let st1 : MCState := { st with sync_token := new }
    if writeOk then { st1 with fs := write_token_file st1.fs new }
    else st1

/-! ## Membership events (client.py, `BackendClient._membership_event`) -/

/-- The two connection settings of `BackendClient.__init__` (client.py
lines 48 to 53). -/
structure Settings where
  membership_message_msg : Bool
  membership_user_msg : Bool
deriving DecidableEq, Repr

/-- The defaults assigned in `BackendClient.__init__`: both enabled. -/
def default_settings : Settings := ⟨true, true⟩

/-- Records delivered to the account via `account.receive_msg`, kept
structured (nuqql-based renders them to wire format): a `chat_user`
roster record and a `CHAT_MSG` chat-message record. -/
inductive MsgRec where
  | chat_user (aid : Nat) (chat user_id user_name status : String)
  | chat_msg (aid : Nat) (chat tstamp sender body : String)
deriving DecidableEq, Repr

/-- `BackendClient._membership_event` (client.py lines 96 to 131). The
locals `user_msg` and `msg` start unbound (`none`); each of the three
independent `if` branches binds both; the unconditional
`Message.CHAT_MSG.format(..., msg)` raises `UnboundLocalError` on
`msg` when no branch ran. Emissions are guarded by the two settings;
the returned list is the sequence of `receive_msg` deliveries. -/
def membership_event (settings : Settings) (aid : Nat)
    (event_type tstamp sender_id sender_name room_id room_name
     invited_user : String) : Except PyExc (List MsgRec) := do
  let st0 : Option MsgRec × Option String := (none, none)
  let st1 :=
    if event_type = "invite" then
      (some (MsgRec.chat_user aid room_id invited_user invited_user
        event_type),
       some ("*** " ++ sender_name ++ " invited " ++ invited_user ++
         " to " ++ room_name ++ ". ***"))
    else st0
  let st2 :=
    if event_type = "join" then
      (some (MsgRec.chat_user aid room_id sender_id invited_user event_type),
       some ("*** " ++ invited_user ++ " joined " ++ room_name ++ ". ***"))
    else st1
  let st3 :=
    if event_type = "leave" then
      (some (MsgRec.chat_user aid room_id sender_id sender_name event_type),
       some ("*** " ++ sender_name ++ " left " ++ room_name ++ ". ***"))
    else st2
  let msg ← match st3.2 with
    | some m => Except.ok m
    | none => Except.error (PyExc.unboundLocal "msg")
  let formatted_msg := MsgRec.chat_msg aid room_id tstamp sender_id msg
  let out1 ← if settings.membership_user_msg then
      match st3.1 with
      | some u => Except.ok [u]
      | none => Except.error (PyExc.unboundLocal "user_msg")
    else Except.ok []
  let out2 := if settings.membership_message_msg then [formatted_msg] else []
  return out1 ++ out2

/-! ## Room messages (matrix.py, `MatrixClient.message_callback`) -/

/-- The `RoomMessage` subclasses distinguished by the `isinstance`
chain of `message_callback`, each constructor covering the classes the
corresponding branch tests together; `otherSub` stands for a
`RoomMessage` subclass matched by no branch. -/
inductive MsgSub where
  | audio
  | emote
  | fileMsg
  | textLike
  | image
  | unknownMsg (msgtype : String)
  | video
  | otherSub
deriving DecidableEq, Repr

/-- The `isinstance(event, (RoomMessageMedia, RoomEncryptedMedia))`
test: the audio, file, image and video classes are the media classes. -/
def is_media : MsgSub → Bool
  | MsgSub.audio => true
  | MsgSub.fileMsg => true
  | MsgSub.image => true
  | MsgSub.video => true
  | _ => false

/-- The fields of an inbound `RoomMessage` event that the callback
reads. -/
structure RoomMessageEv where
  sender : String
  transaction_id : Option String
  server_timestamp : Nat
  body : String
  subtype : MsgSub
  url : String
deriving DecidableEq, Repr

/-- The fields of the `MatrixRoom` argument that the callback reads. -/
structure RoomCtx where
  machine_name : String
deriving DecidableEq, Repr

/-- The `msg` computed by the `isinstance` chain of `message_callback`
(matrix.py lines 131 to 154): `none` when no branch binds it, in which
case the later reference raises `UnboundLocalError`. `mxc_to_http` is
the external URL conversion of the nio client. -/
def room_msg_text (mxc_to_http : String → String) (ev : RoomMessageEv) :
    Option String :=
  let msg_url := " [" ++ mxc_to_http ev.url ++ "]"
  match ev.subtype with
  | MsgSub.audio => some ("*** posted audio: " ++ ev.body ++ msg_url ++ " ***")
  | MsgSub.emote => some ("*** posted emote: " ++ ev.body ++ " ***")
  | MsgSub.fileMsg => some ("*** posted file: " ++ ev.body ++ msg_url ++ " ***")
  | MsgSub.textLike => some ev.body
  | MsgSub.image => some ("*** posted image: " ++ ev.body ++ msg_url ++ " ***")
  | MsgSub.unknownMsg mt =>
      some ("*** sent room message of unknown type: " ++ mt ++ " ***")
  | MsgSub.video => some ("*** posted video: " ++ ev.body ++ msg_url ++ " ***")
  | MsgSub.otherSub => none

/-- `MatrixClient.message_callback` (matrix.py lines 108 to 158):
update the sync token; if the filter-own config is set and the sender
is the own user and the event has a transaction id, return without
delivering; otherwise rewrite the own sender to `<self>`, compute the
message text, and hand `(tstamp, sender, room.machine_name, msg)` to
the message handler, which delivers one chat-message record. -/
def message_callback (filter_own : Bool) (self_user : String)
    (mxc_to_http : String → String) (st : MCState) (writeOk : Bool)
    (room : RoomCtx) (ev : RoomMessageEv) (aid : Nat) :
    Except PyExc (MCState × List MsgRec) := do
  let st := matrix_update_sync_token st writeOk
  if filter_own ∧ ev.sender = self_user ∧ ev.transaction_id.isSome then
    return (st, [])
  let sender := if ev.sender = self_user then "<self>" else ev.sender
  let msg ← match room_msg_text mxc_to_http ev with
    | some m => Except.ok m
    | none => Except.error (PyExc.unboundLocal "msg")
  let tstamp := toString (ev.server_timestamp / 1000)
  return (st, [MsgRec.chat_msg aid room.machine_name tstamp sender msg])

/-! ## Room join and create (matrix.py, `join_room` / `create_room`) -/

/-- Whether the first list starts with the second list as prefix
(pattern first), character by character. -/
def startswith_chars : List Char → List Char → Bool
  | [], _ => true
  | _ :: _, [] => false
  | p :: ps, c :: cs => (p = c) && startswith_chars ps cs

/-- Python `s.startswith(pat)`. -/
def py_startswith (s pat : String) : Bool := startswith_chars pat.data s.data

/-- Python `c in s` for a one-character needle. -/
def py_contains_char (s : String) (c : Char) : Bool := s.data.contains c

/-- Outcome of the external `client.flatten(...)` call: success or a
`JoinError` whose `str()` is the carried description. -/
inductive JoinResp where
  | ok
  | joinError (desc : String)
deriving DecidableEq, Repr

/-- The external room API: the outcome of `client.flatten(name)` and of
`client.room_create(name=name)` (for the latter, `some err` models a
`RoomCreateError` rendering as `err`, `none` a success). -/
structure RoomEnv where
  joinResult : String → JoinResp
  createResult : String → Option String

/-- `MatrixClient.create_room` (matrix.py lines 337 to 345): call
`room_create`, return the error rendering or the empty string. The
second component traces the names `room_create` was called with. -/
def create_room (env : RoomEnv) (room_name : String) : String × List String :=
  match env.createResult room_name with
  | some err => (err, [room_name])
  | none => ("", [room_name])

/-- `MatrixClient.flatten_room` (matrix.py lines 347 to 360): unescape the
name, try to join; on a `JoinError`, fall back to `create_room` with
the unescaped name when it does not start with `!` or contains no `:`,
otherwise return the error text. `unquote` is the external
`urllib.parse.unquote` used by `unescape_name`. The second component
traces the `room_create` calls performed. -/
def join_room (env : RoomEnv) (unquote : String → String)
    (room_name : String) : String × List String :=
  let name := unquote room_name
  match env.joinResult name with
  | JoinResp.ok => ("", [])
  | JoinResp.joinError desc =>
      if (!py_startswith name "!") || (!py_contains_char name ':') then
        create_room env name
      else (desc, [])

/-! ## Sending messages (matrix.py, `MatrixClient.send_message`) -/

/-- The fields of a joined `MatrixRoom` that `send_message` reads. -/
structure MRoom where
  room_id : String
  display_name : String
deriving DecidableEq, Repr

/-- Outcome of the external `client.room_send(...)` call: success, or
the `LocalProtocolError` nio raises at send level. -/
inductive SendOutcome where
  | ok
  | localProtocolError (err : String)
deriving DecidableEq, Repr

/-- The raising behaviour of `client.room_send` for a room id, as an
exception-producing computation. -/
def room_send (send_res : String → SendOutcome) (room_id : String) :
    Except PyExc Unit :=
  match send_res room_id with
  | SendOutcome.ok => Except.ok ()
  | SendOutcome.localProtocolError e =>
      Except.error (PyExc.localProtocolError e)

/-- The loop of `MatrixClient.send_message` (matrix.py lines 312 to
335): for each room whose display name or id matches `dest`, attempt
the send inside `try/except LocalProtocolError`; the handler logs and
sets `self.status = "offline"`; any other exception would propagate. -/
def send_message_loop (send_res : String → SendOutcome) (dest : String) :
    List MRoom → String → Except PyExc String
  | [], status => Except.ok status
  | room :: rest, status =>
      if dest = room.display_name ∨ dest = room.room_id then
        match room_send send_res room.room_id with
        | Except.ok _ => send_message_loop send_res dest rest status
        | Except.error (PyExc.localProtocolError _) =>
            send_message_loop send_res dest rest "offline"
        | Except.error e => Except.error e
      else send_message_loop send_res dest rest status

/-- `MatrixClient.send_message`: run the loop over the joined rooms,
returning the final `self.status`. -/
def send_message (rooms : List MRoom) (send_res : String → SendOutcome)
    (status dest msg html_msg : String) : Except PyExc String :=
  send_message_loop send_res dest rooms status

/-- The status value `send_message` leaves behind, as a pure
computation: `offline` once a matched send raised, the incoming status
otherwise. -/
def send_message_status (send_res : String → SendOutcome) (dest : String) :
    List MRoom → String → String
  | [], status => status
  | room :: rest, status =>
      if dest = room.display_name ∨ dest = room.room_id then
        match send_res room.room_id with
        | SendOutcome.ok => send_message_status send_res dest rest status
        | SendOutcome.localProtocolError _ =>
            send_message_status send_res dest rest "offline"
      else send_message_status send_res dest rest status

/-! ## Concrete instances used to evaluate the theorems -/

/-- An empty file system: no token file yet. -/
def fs0 : FState := ⟨none, 0⟩

/-- A `MatrixClient` state whose in-memory token lags the transport
cursor. -/
def mc0 : MCState := ⟨"a", "b", fs0⟩

/-- A matrix account. -/
def acc0 : Account := ⟨0, "matrix", "dummy@matrix.org"⟩

/-- A server with no active connections. -/
def sstate0 : ServerState := ⟨[], []⟩

/-- A room environment where every join fails and every create
succeeds. -/
def env_join_fail : RoomEnv :=
  ⟨fun _ => JoinResp.joinError "JE", fun _ => none⟩

/-- A room context. -/
def room0 : RoomCtx := ⟨"!r:hs"⟩

/-- A self-originated text message carrying a transaction id. -/
def ev_self_txn : RoomMessageEv :=
  ⟨"@u:hs", some "t", 0, "hi", MsgSub.textLike, ""⟩

/-- A self-originated text message without a transaction id. -/
def ev_self_notxn : RoomMessageEv :=
  ⟨"@u:hs", none, 0, "hi", MsgSub.textLike, ""⟩

/-- A room message of a subclass outside the `isinstance` chain. -/
def ev_unmatched : RoomMessageEv :=
  ⟨"@other:hs", none, 0, "b", MsgSub.otherSub, ""⟩

/-- A joined room. -/
def mroom0 : MRoom := ⟨"!r:hs", "Team"⟩

/-- A send oracle where every send raises `LocalProtocolError`. -/
def send_fail : String → SendOutcome :=
  fun _ => SendOutcome.localProtocolError "err"

/-! ## Helper lemmas -/

/-- Invariant of the queue state machine: the drained batches in order,
followed by the live buffer, always equal the starting contents plus
everything enqueued since, in submission order. -/
theorem run_ops_flatten (ops : List QOp) (s : QState) :
    (run_ops ops s).batches.flatten ++ (run_ops ops s).queue
      = s.batches.flatten ++ (s.queue ++ enqueued_of ops) := by
  induction ops generalizing s with
  | nil => simp [run_ops, enqueued_of]
  | cons op rest ih =>
    cases op with
    | enq c =>
      have h := ih (enqueue_command s c)
      simp only [run_ops, enqueued_of] at h ⊢
      rw [h]
      simp [enqueue_command]
    | drain =>
      have h := ih (handle_queue_drain s)
      simp only [run_ops, enqueued_of] at h ⊢
      rw [h]
      simp [handle_queue_drain]

/-- Running a concatenation of interleavings runs them in sequence. -/
theorem run_ops_append (a b : List QOp) (s : QState) :
    run_ops (a ++ b) s = run_ops b (run_ops a s) := by
  induction a generalizing s with
  | nil => simp [run_ops]
  | cons op rest ih =>
    cases op with
    | enq c => simp [run_ops, ih]
    | drain => simp [run_ops, ih]

/-- `create_room` always calls `room_create` exactly once, with the
name it was given. -/
theorem create_room_trace (env : RoomEnv) (n : String) :
    (create_room env n).2 = [n] := by
  unfold create_room
  cases env.createResult n <;> rfl

/-- `readline_chars` is the identity on newline-free content. -/
theorem readline_chars_of_no_newline (l : List Char) (h : '\n' ∉ l) :
    readline_chars l = l := by
  induction l with
  | nil => rfl
  | cons c rest ih =>
    simp only [List.mem_cons, not_or] at h
    have hne : ¬ c = '\n' := fun hh => h.1 hh.symm
    simp [readline_chars, hne, ih h.2]

/-- `readline` is the identity on newline-free content. -/
theorem readline_of_no_newline (s : String) (h : '\n' ∉ s.data) :
    readline s = s := by
  cases s with
  | mk l => simp only [readline] at h ⊢; rw [readline_chars_of_no_newline l h]

/-! ## Claim C1 -/

/-- Claim C1: for every interleaving of `enqueue_command` calls with
`handle_queue` drains on one lock-guarded queue, (a) the drained
batches followed by the live buffer are exactly the enqueued commands
in submission order, so nothing is dropped, duplicated, or reordered;
(b) after a final drain every enqueued command sits in exactly one
drained batch and the buffer is empty; (c) the dispatch chain of
`handle_queue` dispatches each command at most once; (d) a batch is
processed front to back, preserving submission order. -/
theorem c1_queue_exactly_once_in_order :
    (∀ ops : List QOp,
      (run_ops ops init_qstate).batches.flatten ++ (run_ops ops init_qstate).queue
        = enqueued_of ops)
    ∧ (∀ ops : List QOp,
      (run_ops (ops ++ [QOp.drain]) init_qstate).batches.flatten
          = enqueued_of ops
        ∧ (run_ops (ops ++ [QOp.drain]) init_qstate).queue = [])
    ∧ (∀ c : Cmd, (dispatch_cmd c).length ≤ 1)
    ∧ (∀ b : List Cmd, dispatch_batch b = (b.map dispatch_cmd).flatten) := by
  have hmain : ∀ ops : List QOp,
      (run_ops ops init_qstate).batches.flatten
          ++ (run_ops ops init_qstate).queue
        = enqueued_of ops := by
    intro ops
    simpa [init_qstate] using run_ops_flatten ops init_qstate
  refine ⟨hmain, ?_, ?_, ?_⟩
  · intro ops
    rw [run_ops_append]
    constructor
    · simp only [run_ops, handle_queue_drain]
      have h := hmain ops
      simpa using h
    · simp [run_ops, handle_queue_drain]
  · intro c
    obtain ⟨cb, ps⟩ := c
    cases cb <;> simp [dispatch_cmd]
  · intro b
    induction b with
    | nil => rfl
    | cons c rest ih => simp [dispatch_batch, ih]

/-! ## Claim C2 -/

/-- Claim C2: for every account of type `matrix`, `add_account` calls
`BackendClient(account)` with one argument while
`BackendClient.__init__` requires the mandatory `lock` as well, so the
call raises `TypeError` and the handler fails before any connection is
registered or any session started; moreover even a two-argument
construction would fail inside `__init__`, whose `MatrixClient(url,
user, path, handlers)` call passes four arguments to a two-parameter
constructor; and the `stop`, `task` and `handle_command` members that
server.py uses do not exist on `BackendClient`. -/
theorem c2_add_account_raises_type_error :
    ∀ (st : ServerState) (acc : Account), acc.acc_type = "matrix" →
      add_account st acc = (Except.error PyExc.typeError, st)
      ∧ construct_backend_client 2 = Except.error PyExc.typeError
      ∧ "stop" ∉ backendClient_members
      ∧ "task" ∉ backendClient_members
      ∧ "handle_command" ∉ backendClient_members := by
  intro st acc h
  have h1 : construct_backend_client 1 = Except.error PyExc.typeError := rfl
  refine ⟨?_, rfl, by decide, by decide, by decide⟩
  simp [add_account, h, h1]

/-- Witness for C2: a concrete matrix account on a fresh server. -/
theorem c2_add_account_witness :
    add_account sstate0 acc0 = (Except.error PyExc.typeError, sstate0) :=
  (c2_add_account_raises_type_error sstate0 acc0 rfl).1

/-! ## Claim C3 -/

/-- Claim C3: for every room name passed to `join_room`, if the join
fails with a `JoinError` and the unescaped name is not a fully
qualified room id (does not start with `!` or contains no `:`),
`join_room` calls `create_room` exactly once with that same unescaped
name and returns its result; if the name is qualified, the join error
text is returned and no room is created; on join success the empty
string is returned and no room is created. -/
theorem c3_join_room_create_fallback :
    ∀ (env : RoomEnv) (unquote : String → String) (room_name : String),
      (env.joinResult (unquote room_name) = JoinResp.ok →
        join_room env unquote room_name = ("", []))
      ∧ (∀ desc,
          env.joinResult (unquote room_name) = JoinResp.joinError desc →
          (((!py_startswith (unquote room_name) "!")
              || (!py_contains_char (unquote room_name) ':')) = true →
            join_room env unquote room_name
                = create_room env (unquote room_name)
              ∧ (join_room env unquote room_name).2 = [unquote room_name])
          ∧ (py_startswith (unquote room_name) "!" = true →
             py_contains_char (unquote room_name) ':' = true →
            join_room env unquote room_name = (desc, []))) := by
  intro env unquote room_name
  constructor
  · intro h
    simp [join_room, h]
  · intro desc h
    constructor
    · intro hcond
      have hj : join_room env unquote room_name
          = create_room env (unquote room_name) := by
        simp [join_room, h, hcond]
      exact ⟨hj, by rw [hj]; exact create_room_trace env (unquote room_name)⟩
    · intro h1 h2
      simp [join_room, h, h1, h2]

/-- Witness for C3: with a failing join oracle, joining the bare name
`room` creates a room of that name once, and joining the qualified id
`!r:hs` returns the error text without creating anything. -/
theorem c3_join_room_witness :
    (join_room env_join_fail id "room" = create_room env_join_fail "room"
      ∧ (join_room env_join_fail id "room").2 = ["room"])
    ∧ join_room env_join_fail id "!r:hs" = ("JE", []) :=
  ⟨((c3_join_room_create_fallback env_join_fail id "room").2 "JE" rfl).1
      (by decide),
   ((c3_join_room_create_fallback env_join_fail id "!r:hs").2 "JE" rfl).2
      (by decide) (by decide)⟩

/-! ## Claim C4 -/

/-- Counterexample to C4 as stated: saving the token `a\nb` (write
succeeding) and loading it back yields `a\n`, not the saved token:
`load_sync_token` reads the file with `readline()`, which stops after
the first newline. -/
theorem c4_roundtrip_counterexample :
    (load_sync_token (update_sync_token fs0 true "" "a\nb").1).2 = "a\n"
    ∧ "a\n" ≠ "a\nb" := by
  constructor
  · rfl
  · decide

/-- Claim C4 (amended): for tokens containing no newline character,
saving a changed token with the write succeeding and then loading
returns exactly the saved token; and a save with an unchanged token
performs no file operation, leaving content and modification time
untouched (the state is returned identically). -/
theorem c4_token_roundtrip :
    ∀ (fs : FState) (old new : String), old ≠ new → '\n' ∉ new.data →
      (load_sync_token (update_sync_token fs true old new).1).2 = new
      ∧ (∀ (fs2 : FState) (writeOk : Bool) (tok : String),
          update_sync_token fs2 writeOk tok tok = (fs2, tok)) := by
  intro fs old new hne hnl
  constructor
  · simp [update_sync_token, hne, write_token_file, load_sync_token,
      readline_of_no_newline new hnl]
  · intro fs2 writeOk tok
    simp [update_sync_token]

/-- Witness for C4: the token `tok` round-trips through an empty file
system, and an unchanged save is the identity on the state. -/
theorem c4_token_roundtrip_witness :
    (load_sync_token (update_sync_token fs0 true "" "tok").1).2 = "tok"
    ∧ update_sync_token fs0 false "t" "t" = (fs0, "t") := by
  have h := c4_token_roundtrip fs0 "" "tok" (by decide) (by decide)
  exact ⟨h.1, h.2 fs0 false "t"⟩

/-! ## Claim C5 -/

/-- Counterexample to C5 as stated: in `MatrixClient._update_sync_token`
the assignment `self.sync_token = new` happens before the file write is
attempted, so after a failed write the in-memory token is the NEW
value, not the previous one (here: `b` instead of `a`). -/
theorem c5_matrix_token_counterexample :
    (matrix_update_sync_token mc0 false).sync_token = "b"
    ∧ (matrix_update_sync_token mc0 false).sync_token ≠ "a" := by
  constructor
  · rfl
  · decide

/-- Claim C5 (amended): a failed token-file write raises nothing in
either implementation (both functions are total and return normally);
in `BackendClient.update_sync_token` the previous value stays
authoritative (it is returned, and the file is untouched); in
`MatrixClient._update_sync_token` the in-memory token has already been
advanced to the new value before the write, so after a failed write
the new value is authoritative and only the file keeps its old
content. -/
theorem c5_write_failure_swallowed :
    (∀ (fs : FState) (old new : String), old ≠ new →
      update_sync_token fs false old new = (fs, old))
    ∧ (∀ st : MCState, st.sync_token ≠ st.next_batch →
      matrix_update_sync_token st false
        = { st with sync_token := st.next_batch }) := by
  constructor
  · intro fs old new hne
    simp [update_sync_token, hne]
  · intro st hne
    simp [matrix_update_sync_token, hne]

/-- Witness for C5: a concrete failed save in both implementations. -/
theorem c5_write_failure_witness :
    update_sync_token fs0 false "" "x" = (fs0, "")
    ∧ matrix_update_sync_token mc0 false = { mc0 with sync_token := "b" } :=
  ⟨c5_write_failure_swallowed.1 fs0 "" "x" (by decide),
   c5_write_failure_swallowed.2 mc0 (by decide)⟩

/-! ## Claim C6 -/

/-- Claim C6 is contradicted by the code: on a membership event whose
kind is none of invite, join, leave (here `ban`), the `if` chain of
`_membership_event` binds neither local, and the unconditional
`Message.CHAT_MSG.format(..., msg)` raises `UnboundLocalError`
instead of returning silently; likewise `message_callback` on a room
message matching no `isinstance` branch raises `UnboundLocalError` at
the `message_handler` call. Zero messages are emitted either way, but
the handlers raise rather than no-op. -/
theorem c6_unknown_event_raises :
    membership_event default_settings 0 "ban" "0" "@a:hs" "Alice"
        "!r:hs" "Team" ""
      = Except.error (PyExc.unboundLocal "msg")
    ∧ message_callback true "@u:hs" id mc0 true room0 ev_unmatched 0
      = Except.error (PyExc.unboundLocal "msg") :=
  ⟨rfl, rfl⟩

/-! ## Claim C7 -/

/-- Claim C7: on a membership event of kind `join` with sender display
name `Alice`, affected user `Bob` and room display name `Team`, under
the default settings (both emission flags enabled), the handler
delivers exactly two records: a `chat_user` join record naming `Bob`
as the joining user in the room, then a chat-message record whose
narrative body is `*** Bob joined Team. ***`. -/
theorem c7_join_membership_two_records :
    ∀ (aid : Nat) (tstamp sender_id room_id : String),
      membership_event default_settings aid "join" tstamp sender_id "Alice"
          room_id "Team" "Bob"
        = Except.ok
            [MsgRec.chat_user aid room_id sender_id "Bob" "join",
             MsgRec.chat_msg aid room_id tstamp sender_id
               "*** Bob joined Team. ***"] := by
  intro aid tstamp sender_id room_id
  rfl

/-! ## Claim C8 -/

/-- Counterexample to C8 as stated: the self-message filter only runs
when the account's filter-own configuration is enabled; with it
disabled, a self-originated message carrying a transaction id still
reaches the front-end handler (one chat-message record is delivered),
contradicting `never reaches the front-end handler`. -/
theorem c8_filter_disabled_counterexample :
    message_callback false "@u:hs" id mc0 false room0 ev_self_txn 0
      = Except.ok ({ mc0 with sync_token := "b" },
          [MsgRec.chat_msg 0 "!r:hs" "0" "<self>" "hi"])
    ∧ [MsgRec.chat_msg 0 "!r:hs" "0" "<self>" "hi"] ≠ ([] : List MsgRec) := by
  constructor
  · rfl
  · decide

/-- Claim C8 (amended): for every inbound room message of a recognized
message class whose sender is the account's own user id, if the event
carries no transaction id it is forwarded to the front-end handler
with the sender rewritten to `<self>`; if it carries a transaction id
AND the filter-own configuration is enabled, it is suppressed and
never reaches the handler (with filter-own disabled it is
delivered). -/
theorem c8_self_message_filter :
    ∀ (filter_own : Bool) (self_user : String) (mxc : String → String)
      (st : MCState) (writeOk : Bool) (room : RoomCtx)
      (ev : RoomMessageEv) (aid : Nat) (m : String),
      ev.sender = self_user → room_msg_text mxc ev = some m →
      (ev.transaction_id = none →
        message_callback filter_own self_user mxc st writeOk room ev aid
          = Except.ok (matrix_update_sync_token st writeOk,
              [MsgRec.chat_msg aid room.machine_name
                (toString (ev.server_timestamp / 1000)) "<self>" m]))
      ∧ (filter_own = true → ev.transaction_id.isSome = true →
        message_callback filter_own self_user mxc st writeOk room ev aid
          = Except.ok (matrix_update_sync_token st writeOk, [])) := by
  intro filter_own self_user mxc st writeOk room ev aid m hself hmsg
  constructor
  · intro htxn
    simp [message_callback, hself, hmsg, htxn]
  · intro hfo htxn
    simp [message_callback, hself, hmsg, hfo, htxn]
    rfl

/-- Witness for C8: a concrete self message without a transaction id is
delivered as `<self>`, and one with a transaction id is suppressed
when filter-own is enabled. -/
theorem c8_self_message_witness :
    message_callback true "@u:hs" id mc0 true room0 ev_self_notxn 0
      = Except.ok (matrix_update_sync_token mc0 true,
          [MsgRec.chat_msg 0 "!r:hs" "0" "<self>" "hi"])
    ∧ message_callback true "@u:hs" id mc0 true room0 ev_self_txn 0
      = Except.ok (matrix_update_sync_token mc0 true, []) :=
  ⟨(c8_self_message_filter true "@u:hs" id mc0 true room0 ev_self_notxn 0
      "hi" rfl rfl).1 rfl,
   (c8_self_message_filter true "@u:hs" id mc0 true room0 ev_self_txn 0
      "hi" rfl rfl).2 rfl rfl⟩

/-! ## Claim C9 -/

/-- The send loop never lets an exception escape: it returns the pure
final status, because the only exception the underlying send raises is
the `LocalProtocolError` that the `try/except` converts into the
offline status. -/
theorem send_message_loop_ok (sr : String → SendOutcome) (dest : String) :
    ∀ (rooms : List MRoom) (status : String),
      send_message_loop sr dest rooms status
        = Except.ok (send_message_status sr dest rooms status) := by
  intro rooms
  induction rooms with
  | nil => intro status; rfl
  | cons room rest ih =>
    intro status
    by_cases hm : dest = room.display_name ∨ dest = room.room_id
    · cases hsr : sr room.room_id with
      | ok =>
          simp [send_message_loop, send_message_status, hm, room_send, hsr, ih]
      | localProtocolError e =>
          simp [send_message_loop, send_message_status, hm, room_send, hsr, ih]
    · simp [send_message_loop, send_message_status, hm, ih]

/-- Once the status is offline, the send loop leaves it offline. -/
theorem send_message_status_offline (sr : String → SendOutcome)
    (dest : String) :
    ∀ rooms : List MRoom,
      send_message_status sr dest rooms "offline" = "offline" := by
  intro rooms
  induction rooms with
  | nil => rfl
  | cons room rest ih =>
    by_cases hm : dest = room.display_name ∨ dest = room.room_id
    · cases hsr : sr room.room_id with
      | ok => simp [send_message_status, hm, hsr, ih]
      | localProtocolError e => simp [send_message_status, hm, hsr, ih]
    · simp [send_message_status, hm, ih]

/-- If some matched room's send raises, the final status is offline. -/
theorem send_message_status_err (sr : String → SendOutcome) (dest : String) :
    ∀ rooms : List MRoom,
      (∃ r ∈ rooms, (dest = r.display_name ∨ dest = r.room_id)
        ∧ sr r.room_id ≠ SendOutcome.ok) →
      ∀ status, send_message_status sr dest rooms status = "offline" := by
  intro rooms
  induction rooms with
  | nil => rintro ⟨r, hr, _⟩ _; exact absurd hr (List.not_mem_nil r)
  | cons room rest ih =>
    rintro ⟨r, hr, hm, he⟩ status
    rcases List.mem_cons.mp hr with heq | hrest
    · subst heq
      cases hsr : sr r.room_id with
      | ok => exact absurd hsr he
      | localProtocolError e =>
          simp [send_message_status, hm, hsr,
            send_message_status_offline sr dest rest]
    · have hrec := ih ⟨r, hrest, hm, he⟩
      by_cases hm2 : dest = room.display_name ∨ dest = room.room_id
      · cases hsr : sr room.room_id with
        | ok => simp [send_message_status, hm2, hsr, hrec]
        | localProtocolError e => simp [send_message_status, hm2, hsr, hrec]
      · simp [send_message_status, hm2, hrec]

/-- Claim C9: for every `send_message` call that resolves a destination
room, any `LocalProtocolError` raised by the underlying `room_send` is
caught inside `send_message` and does not propagate (the call returns
a value, never an exception, so it cannot terminate the queue-draining
loop), and if any matched send raised, the session status has been set
to `offline`. -/
theorem c9_send_error_sets_offline :
    ∀ (rooms : List MRoom) (sr : String → SendOutcome)
      (status dest msg html : String),
      (∃ r ∈ rooms, dest = r.display_name ∨ dest = r.room_id) →
      send_message rooms sr status dest msg html
        = Except.ok (send_message_status sr dest rooms status)
      ∧ ((∃ r ∈ rooms, (dest = r.display_name ∨ dest = r.room_id)
            ∧ sr r.room_id ≠ SendOutcome.ok) →
        send_message rooms sr status dest msg html = Except.ok "offline") := by
  intro rooms sr status dest msg html _hres
  refine ⟨send_message_loop_ok sr dest rooms status, ?_⟩
  intro herr
  rw [send_message, send_message_loop_ok sr dest rooms status,
    send_message_status_err sr dest rooms herr status]

/-- Witness for C9: a send to the resolved room `Team` whose underlying
send raises returns normally with status `offline`. -/
theorem c9_send_error_witness :
    send_message [mroom0] send_fail "online" "Team" "m" "h"
      = Except.ok "offline" :=
  (c9_send_error_sets_offline [mroom0] send_fail "online" "Team" "m" "h"
      ⟨mroom0, List.mem_singleton.mpr rfl, Or.inl rfl⟩).2
    ⟨mroom0, List.mem_singleton.mpr rfl, Or.inl rfl, by decide⟩

/-! ## Claim C10 -/

/-- Counterexample to C10 as stated: `del_account` and `stop_task` look
up `self.connections[account.aid]` without a `try/except`, so on an
account id absent from the registry they raise `KeyError` instead of
returning the empty string. -/
theorem c10_del_account_counterexample :
    server_del_account [] 0 = Except.error PyExc.keyError
    ∧ server_del_account [] 0 ≠ Except.ok ("", [])
    ∧ server_stop_task [] 0 = Except.error PyExc.keyError
    ∧ server_stop_task [] 0 ≠ Except.ok "" := by
  exact ⟨rfl, fun h => Except.noConfusion h, rfl,
    fun h => Except.noConfusion h⟩

/-- Claim C10 (amended): on an account id with no entry in the
connections registry, `handle_command` returns the empty string as a
no-op; `del_account` and `stop_task`, by contrast, perform the lookup
unguarded and raise `KeyError`. -/
theorem c10_unknown_account_dispatch :
    ∀ (conns : List Nat) (aid : Nat), aid ∉ conns →
      server_handle_command conns aid = Except.ok ""
      ∧ server_del_account conns aid = Except.error PyExc.keyError
      ∧ server_stop_task conns aid = Except.error PyExc.keyError := by
  intro conns aid h
  refine ⟨?_, ?_, ?_⟩ <;>
    simp [server_handle_command, server_del_account, server_stop_task, h]

/-- Witness for C10: the empty registry with account id 0. -/
theorem c10_unknown_account_witness :
    server_handle_command [] 0 = Except.ok ""
    ∧ server_del_account [] 0 = Except.error PyExc.keyError
    ∧ server_stop_task [] 0 = Except.error PyExc.keyError :=
  c10_unknown_account_dispatch [] 0 (by decide)

end MatrixdNio
